import Mathlib

/-!
Verification of the hand-hygiene observation-form generator.

Shallow embedding of `src/server/pdf_generator.py` (class `ObservationFormPDF`
and the CLI entry point `main`).

Modelling conventions:
* An observation record is a Python dict with optional keys `timestamp`,
  `timing`, `action`; it is embedded as a structure of `Option` fields, and
  `record.get(key, default)` becomes `Option.getD`.
* Page coordinates are exact rationals (`ℚ`); 1 mm is the reportlab constant
  72 / 25.4 points.  Float rounding of the Python runtime is abstracted away.
* The date key `datetime.fromtimestamp(ts / 1000).strftime("%Y-%m-%d")` is
  embedded as the local calendar-day number (an `Int`): the local timezone is
  a fixed offset `tz` in milliseconds, and the day number is the floor
  division of `ts + tz` by the number of milliseconds per day.  For dates
  representable by `datetime` (4-digit years) the `"%Y-%m-%d"` string order
  is exactly the day-number order, so sorting keys is modelled faithfully.
* All canvas calls are recorded in order as a trace of `DrawOp` values; a
  drawing function returns its trace together with the vertical cursor it
  returns in Python.
-/

namespace PdfGen

/-- One millimetre in points, as used by `reportlab.lib.units.mm` (72 / 25.4). -/
def mmUnit : ℚ := 360 / 127

/-- A4 page width (210 mm), `self.page_width`. -/
def pageWidth : ℚ := 210 * mmUnit

/-- A4 page height (297 mm), `self.page_height`. -/
def pageHeight : ℚ := 297 * mmUnit

/-- The page margin `self.margin = 10 * mm`. -/
def margin : ℚ := 10 * mmUnit

/-- One observation record: a JSON object with optional keys
`timestamp` (ms since epoch), `timing` and `action`. -/
structure ObservationRecord where
  timestamp : Option Int
  timing    : Option Int
  action    : Option String
deriving DecidableEq, Repr

/-- Milliseconds per calendar day. -/
def dayMs : Int := 86400000

/-- The local calendar-day key of a record:
`datetime.fromtimestamp(record.get("timestamp", 0) / 1000).strftime("%Y-%m-%d")`,
embedded as the local day number for timezone offset `tz` (in ms). -/
def dateKey (tz : Int) (r : ObservationRecord) : Int :=
  Int.fdiv (r.timestamp.getD 0 + tz) dayMs

/-- One step of building `records_by_date`: record the date key of `r`,
keeping first-seen order of distinct keys (Python dict insertion order). -/
def addDateKey (tz : Int) (ks : List Int) (r : ObservationRecord) : List Int :=
  if dateKey tz r ∈ ks then ks else ks ++ [dateKey tz r]

/-- The distinct date keys of `records_by_date`, in first-seen order. -/
def dateKeys (tz : Int) (records : List ObservationRecord) : List Int :=
  records.foldl (addDateKey tz) []

/-- Python `sorted(records_by_date.keys())`. -/
def sortedKeys (tz : Int) (records : List ObservationRecord) : List Int :=
  List.insertionSort (· ≤ ·) (dateKeys tz records)

/-- The retained session keys `sorted(records_by_date.keys())[:8]`. -/
def sessionKeys (tz : Int) (records : List ObservationRecord) : List Int :=
  (sortedKeys tz records).take 8

/-- The bucket `records_by_date[date_key]`: the records of one date, in input order
(records are appended to the bucket in input order). -/
def sessionRecords (tz : Int) (records : List ObservationRecord) (k : Int) :
    List ObservationRecord :=
  records.filter (fun r => dateKey tz r = k)

/-- The retained sessions with their 1-based numbers: mirrors the loop
`session_num += 1` over `sorted(records_by_date.keys())[:8]`. -/
def numberedSessions (tz : Int) (records : List ObservationRecord) :
    Nat → List Int → List (Nat × Int × List ObservationRecord)
  | _, [] => []
  | n, k :: ks =>
      (n + 1, k, sessionRecords tz records k) :: numberedSessions tz records (n + 1) ks

/-- The emitted session groups `(sessionNumber, dateKey, records)`. -/
def sessions (tz : Int) (records : List ObservationRecord) :
    List (Nat × Int × List ObservationRecord) :=
  numberedSessions tz records 0 (sessionKeys tz records)

/-- The bucket `timing_records = [r for r in session_records if r.get("timing") == timing]`.
An absent `timing` is `None`, which matches no integer. -/
def timingRecords (group : List ObservationRecord) (t : Int) :
    List ObservationRecord :=
  group.filter (fun r => r.timing = some t)

/-- The column-2 glyph `applicable = "☑" if timing_records else "☐"`. -/
def applicableGlyph (group : List ObservationRecord) (t : Int) : String :=
  if timingRecords group t = [] then "☐" else "☑"

/-- The checked glyph contributed by one record, if its action matches a
known kind (`record.get("action", "")` compared against the three kinds). -/
def actionGlyph (r : ObservationRecord) : Option String :=
  let a := r.action.getD ""
  if a = "hand_sanitizer" then some "☑手指消毒"
  else if a = "hand_wash" then some "☑手洗い"
  else if a = "no_action" then some "☑実施なし"
  else none

/-- The `actions` list built record by record (one glyph per record whose
action matches a known kind, in record order; no deduplication). -/
def checkedGlyphs (group : List ObservationRecord) (t : Int) : List String :=
  (timingRecords group t).filterMap actionGlyph

/-- The fallback `actions = ["☐手指消毒", "☐手洗い", "☐実施なし"]`. -/
def uncheckedGlyphs : List String := ["☐手指消毒", "☐手洗い", "☐実施なし"]

/-- The glyph list actually rendered in column 3: `actions[:2]` applied after
the empty-list fallback. -/
def displayGlyphs (group : List ObservationRecord) (t : Int) : List String :=
  (if checkedGlyphs group t = [] then uncheckedGlyphs else checkedGlyphs group t).take 2

/-- The column-3 text `action_text = " ".join(actions[:2])`. -/
def actionText (group : List ObservationRecord) (t : Int) : String :=
  String.intercalate " " (displayGlyphs group t)

/-- One canvas call, recorded with its exact arguments. -/
inductive DrawOp where
  | text (x y : ℚ) (s : String)
  | textCentred (x y : ℚ) (s : String)
  | textRight (x y : ℚ) (s : String)
  | line (x1 y1 x2 y2 : ℚ)
  | rect (x y w h : ℚ) (fill : Bool)
  | setFont (font : String) (size : ℚ)
  | setFillRGB (r g b : ℚ)
  | setStrokeRGB (r g b : ℚ)
deriving DecidableEq, Repr

/-- The ten optional facility-info fields (JSON keys `facilityName`,
`department`, `ward`, `section`, `periodNumber`, `date`, `sessionNumber`,
`observer`, `pageNumber`, `address`; `section` is a Lean keyword, hence
the field name `sectionName`). -/
structure FacilityInfo where
  facilityName  : Option String
  department    : Option String
  ward          : Option String
  sectionName   : Option String
  periodNumber  : Option String
  date          : Option String
  sessionNumber : Option String
  observer      : Option String
  pageNumber    : Option String
  address       : Option String
deriving DecidableEq, Repr

/-- The `fields` list of `_draw_header_info`: ten fixed labels with
`facility_info.get(key, "")` values. -/
def headerFields (info : FacilityInfo) : List (String × String) :=
  [("施設名:", info.facilityName.getD ""),
   ("部局:", info.department.getD ""),
   ("病棟:", info.ward.getD ""),
   ("科:", info.sectionName.getD ""),
   ("期間番号:", info.periodNumber.getD ""),
   ("日付 (dd/mm/yy):", info.date.getD ""),
   ("セッション番号:", info.sessionNumber.getD ""),
   ("観察者 (initials):", info.observer.getD ""),
   ("ページ№:", info.pageNumber.getD ""),
   ("住所:", info.address.getD "")]

/-- The header row pitch `line_height = 5 * mm`. -/
def lineHeight : ℚ := 5 * mmUnit

/-- The left column origin `x_left = self.margin`. -/
def xLeft : ℚ := margin

/-- The right column origin `x_right = self.page_width / 2 + 5 * mm`. -/
def xRight : ℚ := pageWidth / 2 + 5 * mmUnit

/-- The canvas calls of one iteration of the header loop, for field index
`i` with the given label and value.  `if value:` draws the value only when
the string is non-empty. -/
def headerCellOps (yStart : ℚ) (i : Nat) (label value : String) : List DrawOp :=
  let x : ℚ := if i % 2 = 0 then xLeft else xRight
  let y : ℚ := if i % 2 = 0 then yStart - (i / 2 : Nat) * lineHeight
               else yStart - ((i - 1) / 2 : Nat) * lineHeight
  [DrawOp.text x y label,
   DrawOp.line (x + 25 * mmUnit) (y - 1 * mmUnit) (x + 60 * mmUnit) (y - 1 * mmUnit)]
  ++ (if value ≠ "" then [DrawOp.text (x + 26 * mmUnit) (y - 2 * mmUnit) value] else [])

/-- The header stage `_draw_header_info`: trace of canvas calls and the returned cursor
`y_start - 6 * line_height`. -/
def headerOps (info : FacilityInfo) (yStart : ℚ) : List DrawOp × ℚ :=
  (DrawOp.setFont "HeiseiKakuGo-W5" 9 ::
     ((headerFields info).enum.flatMap fun p => headerCellOps yStart p.1 p.2.1 p.2.2),
   yStart - 6 * lineHeight)

/-- The table row height `row_height = 8 * mm`. -/
def rowHeight : ℚ := 8 * mmUnit

/-- The table width `table_width = self.page_width - 2 * self.margin`. -/
def tableWidth : ℚ := pageWidth - 2 * margin

/-- The column width `col_width = table_width / 4`. -/
def colWidth : ℚ := tableWidth / 4

/-- The row title `TIMINGS.get(timing, ...).get("name", "")`. -/
def timingName (t : Int) : String :=
  if t = 1 then "患者接触前"
  else if t = 2 then "清潔/無菌操作前"
  else if t = 3 then "体液曝露後"
  else if t = 4 then "患者接触後"
  else if t = 5 then "患者周辺物品接触後"
  else ""

/-- The canvas calls of one data row (session `n`, timing `t`) drawn with
the cursor at `y`. -/
def rowOps (n : Nat) (group : List ObservationRecord) (t : Int) (y : ℚ) :
    List DrawOp :=
  [DrawOp.setFillRGB 1 (96 / 100) (94 / 100),
   DrawOp.rect margin (y - rowHeight) tableWidth rowHeight true,
   DrawOp.setFont "HeiseiKakuGo-W5" 7,
   DrawOp.text (margin + 2 * mmUnit) (y - rowHeight + 2 * mmUnit)
     (toString n ++ ". " ++ timingName t),
   DrawOp.text (margin + colWidth + 2 * mmUnit) (y - rowHeight + 2 * mmUnit)
     (applicableGlyph group t),
   DrawOp.text (margin + 2 * colWidth + 2 * mmUnit) (y - rowHeight + 2 * mmUnit)
     (actionText group t),
   DrawOp.setStrokeRGB (7 / 10) (7 / 10) (7 / 10),
   DrawOp.rect margin (y - rowHeight) tableWidth rowHeight false]

/-- The timing loop `for timing in range(1, 6)`. -/
def timingsList : List Int := [1, 2, 3, 4, 5]

/-- The five timing rows of one session group: the trace and the cursor
after the inner loop (`y -= row_height` per row). -/
def sessionOps (n : Nat) (group : List ObservationRecord) (y : ℚ) :
    List DrawOp × ℚ :=
  timingsList.foldl (fun acc t => (acc.1 ++ rowOps n group t acc.2, acc.2 - rowHeight))
    ([], y)

/-- The canvas calls up to and including the table header row, with the
cursor already moved to `y` (`y_start - 10 * mm`). -/
def tableHeaderOps (y : ℚ) : List DrawOp :=
  [DrawOp.setFont "HeiseiKakuGo-W5" 8,
   DrawOp.setFillRGB (93 / 100) (84 / 100) (75 / 100),
   DrawOp.rect margin (y - rowHeight) tableWidth rowHeight true,
   DrawOp.setFont "HeiseiKakuGo-W5" 7,
   DrawOp.text (margin + 0 * colWidth + 2 * mmUnit) (y - rowHeight + 2 * mmUnit) "機会",
   DrawOp.text (margin + 1 * colWidth + 2 * mmUnit) (y - rowHeight + 2 * mmUnit) "適応",
   DrawOp.text (margin + 2 * colWidth + 2 * mmUnit) (y - rowHeight + 2 * mmUnit) "手指衛生",
   DrawOp.text (margin + 3 * colWidth + 2 * mmUnit) (y - rowHeight + 2 * mmUnit) "機会"]

/-- The table stage `_draw_observation_table`: trace and returned cursor.  The cursor first
moves to `y_start - 10 * mm`, the header row is drawn and consumes one
`row_height`, then each retained session draws five rows. -/
def tableOps (tz : Int) (records : List ObservationRecord) (yStart : ℚ) :
    List DrawOp × ℚ :=
  let y0 : ℚ := yStart - 10 * mmUnit
  (sessions tz records).foldl
    (fun acc s =>
      let r := sessionOps s.1 s.2.2 acc.2
      (acc.1 ++ r.1, r.2))
    (tableHeaderOps y0, y0 - rowHeight)

/-- The assembly `generate`: the complete trace of drawn content (title, subtitle,
header block, observation table, footer).  The output path only names the
file and contributes no drawn content. -/
def generateOps (tz : Int) (info : FacilityInfo)
    (records : List ObservationRecord) : List DrawOp :=
  let afterHeader := headerOps info (pageHeight - 35 * mmUnit)
  let afterTable := tableOps tz records afterHeader.2
  [DrawOp.setFont "HeiseiKakuGo-W5" 16,
   DrawOp.textCentred (pageWidth / 2) (pageHeight - 20 * mmUnit)
     "泉州感染防止ネットワーク手指衛生直接観察用フォーム",
   DrawOp.setFont "HeiseiKakuGo-W5" 10,
   DrawOp.textCentred (pageWidth / 2) (pageHeight - 28 * mmUnit) "観察フォーム"]
  ++ afterHeader.1 ++ afterTable.1
  ++ [DrawOp.setFont "HeiseiKakuGo-W5" 8,
      DrawOp.textRight (pageWidth - 10 * mmUnit) (10 * mmUnit) "WHO観察フォーム一部変換"]

/-- What `main` writes to stdout: the success envelope, the error envelope,
or the bare usage line of the missing-argument branch. -/
inductive StdoutMsg where
  | jsonSuccess (path : String)
  | jsonError (msg : String)
  | usageText
deriving DecidableEq, Repr

/-- Whether the stdout message is one of the two JSON envelopes. -/
def isJsonObjectOutput : StdoutMsg → Bool
  | StdoutMsg.usageText => false
  | _ => true

/-- Observable outcome of one CLI invocation. -/
structure CliResult where
  stdout   : StdoutMsg
  exitCode : Nat
deriving DecidableEq, Repr

/-- The CLI `main`: `argv` is `sys.argv` (script name included); `gen` is the
behaviour of `generate_from_json` on the two arguments — `Except.error`
models any exception reaching the `try` block. -/
def mainRun (argv : List String) (gen : String → String → Except String String) :
    CliResult :=
  if argv.length < 3 then ⟨StdoutMsg.usageText, 1⟩
  else
    match gen (argv.getD 1 "") (argv.getD 2 "") with
    | Except.ok p => ⟨StdoutMsg.jsonSuccess p, 0⟩
    | Except.error e => ⟨StdoutMsg.jsonError e, 1⟩

/-- The display rule as claim C3 words it: deduplicate the matched action
kinds keeping first-seen order, then take the first 2.  Stated only to be
compared against `displayGlyphs`, the actual rule of the code. -/
def specDedupDisplay (group : List ObservationRecord) (t : Int) : List String :=
  ((checkedGlyphs group t).foldl
      (fun acc g => if g ∈ acc then acc else acc ++ [g]) []).take 2

/-- Column origin of header field `i`: even index → left column, odd index
→ right column. -/
def headerX (i : Nat) : ℚ := if i % 2 = 0 then xLeft else xRight

/-- Baseline of header field `i`: row number `i / 2`, one `lineHeight` per
row below `yStart`. -/
def headerY (yStart : ℚ) (i : Nat) : ℚ := yStart - (i / 2 : Nat) * lineHeight

/-! ## Helper lemmas on the grouping stage -/

lemma mem_foldl_addDateKey (tz : Int) (records : List ObservationRecord) :
    ∀ (ks : List Int) (k : Int),
      (k ∈ records.foldl (addDateKey tz) ks ↔
        k ∈ ks ∨ ∃ r ∈ records, dateKey tz r = k) := by
  induction records with
  | nil => intro ks k; simp
  | cons r rs ih =>
      intro ks k
      simp only [List.foldl_cons, ih, addDateKey]
      by_cases h : dateKey tz r ∈ ks
      · rw [if_pos h]
        constructor
        · rintro (hk | ⟨r2, hr2, hk⟩)
          · exact Or.inl hk
          · exact Or.inr ⟨r2, List.mem_cons_of_mem _ hr2, hk⟩
        · rintro (hk | ⟨r2, hr2, hk⟩)
          · exact Or.inl hk
          · rcases List.mem_cons.1 hr2 with h2 | h2
            · subst h2; exact Or.inl (hk ▸ h)
            · exact Or.inr ⟨r2, h2, hk⟩
      · rw [if_neg h]
        constructor
        · rintro (hk | ⟨r2, hr2, hk⟩)
          · rcases List.mem_append.1 hk with h2 | h2
            · exact Or.inl h2
            · exact Or.inr ⟨r, List.mem_cons_self _ _, (List.mem_singleton.1 h2).symm⟩
          · exact Or.inr ⟨r2, List.mem_cons_of_mem _ hr2, hk⟩
        · rintro (hk | ⟨r2, hr2, hk⟩)
          · exact Or.inl (List.mem_append.2 (Or.inl hk))
          · rcases List.mem_cons.1 hr2 with h2 | h2
            · subst h2
              exact Or.inl (List.mem_append.2 (Or.inr (List.mem_singleton.2 hk.symm)))
            · exact Or.inr ⟨r2, h2, hk⟩

lemma foldl_addDateKey_nodup (tz : Int) (records : List ObservationRecord) :
    ∀ (ks : List Int), ks.Nodup → (records.foldl (addDateKey tz) ks).Nodup := by
  induction records with
  | nil => intro ks h; simpa using h
  | cons r rs ih =>
      intro ks h
      simp only [List.foldl_cons]
      apply ih
      unfold addDateKey
      by_cases hm : dateKey tz r ∈ ks
      · simpa [if_pos hm] using h
      · rw [if_neg hm]
        refine List.Nodup.append h (List.nodup_singleton _) ?_
        intro a ha hb
        rw [List.mem_singleton] at hb
        exact hm (hb ▸ ha)

lemma mem_dateKeys (tz : Int) (records : List ObservationRecord) (k : Int) :
    k ∈ dateKeys tz records ↔ ∃ r ∈ records, dateKey tz r = k := by
  simpa [dateKeys] using mem_foldl_addDateKey tz records [] k

lemma dateKeys_nodup (tz : Int) (records : List ObservationRecord) :
    (dateKeys tz records).Nodup :=
  foldl_addDateKey_nodup tz records [] List.nodup_nil

/-- The distinct-key list has as many entries as there are distinct date
keys among the records. -/
lemma length_dateKeys (tz : Int) (records : List ObservationRecord) :
    (dateKeys tz records).length = (records.map (dateKey tz)).toFinset.card := by
  have h1 : (dateKeys tz records).toFinset = (records.map (dateKey tz)).toFinset := by
    ext k
    simp only [List.mem_toFinset, mem_dateKeys, List.mem_map]
  rw [← h1, List.toFinset_card_of_nodup (dateKeys_nodup tz records)]

lemma sortedKeys_perm (tz : Int) (records : List ObservationRecord) :
    List.Perm (sortedKeys tz records) (dateKeys tz records) :=
  List.perm_insertionSort _ _

lemma sortedKeys_nodup (tz : Int) (records : List ObservationRecord) :
    (sortedKeys tz records).Nodup :=
  (sortedKeys_perm tz records).nodup_iff.2 (dateKeys_nodup tz records)

lemma sortedKeys_sorted_lt (tz : Int) (records : List ObservationRecord) :
    List.Sorted (· < ·) (sortedKeys tz records) := by
  have h1 : List.Sorted (· ≤ ·) (sortedKeys tz records) :=
    List.sorted_insertionSort _ _
  exact (h1.and (sortedKeys_nodup tz records)).imp fun hab =>
    lt_of_le_of_ne hab.1 hab.2

lemma sessionKeys_sorted_lt (tz : Int) (records : List ObservationRecord) :
    List.Sorted (· < ·) (sessionKeys tz records) :=
  List.Pairwise.sublist (List.take_sublist _ _) (sortedKeys_sorted_lt tz records)

lemma sessionKeys_subset_dateKeys (tz : Int) (records : List ObservationRecord)
    (k : Int) (h : k ∈ sessionKeys tz records) : k ∈ dateKeys tz records :=
  (sortedKeys_perm tz records).mem_iff.1 (List.take_subset _ _ h)

/-- A distinct date key that was dropped by the `[:8]` cap is larger than
every retained key. -/
lemma sessionKeys_dropped_gt (tz : Int) (records : List ObservationRecord)
    (k : Int) (hk : k ∈ dateKeys tz records) (hnot : k ∉ sessionKeys tz records) :
    ∀ k2 ∈ sessionKeys tz records, k2 < k := by
  have hsplit := List.take_append_drop 8 (sortedKeys tz records)
  have hpw : List.Pairwise (· < ·)
      ((sortedKeys tz records).take 8 ++ (sortedKeys tz records).drop 8) := by
    rw [hsplit]; exact sortedKeys_sorted_lt tz records
  have hmem : k ∈ sortedKeys tz records := (sortedKeys_perm tz records).mem_iff.2 hk
  have hdrop : k ∈ (sortedKeys tz records).drop 8 := by
    have h2 : k ∈ (sortedKeys tz records).take 8 ++ (sortedKeys tz records).drop 8 := by
      rw [hsplit]; exact hmem
    rcases List.mem_append.1 h2 with h3 | h3
    · exact absurd h3 hnot
    · exact h3
  intro k2 hk2
  exact (List.pairwise_append.1 hpw).2.2 k2 hk2 k hdrop

lemma numberedSessions_length (tz : Int) (records : List ObservationRecord) :
    ∀ (ks : List Int) (n : Nat),
      (numberedSessions tz records n ks).length = ks.length := by
  intro ks
  induction ks with
  | nil => intro n; rfl
  | cons k ks ih => intro n; simp [numberedSessions, ih]

lemma numberedSessions_get_fst (tz : Int) (records : List ObservationRecord) :
    ∀ (ks : List Int) (n i : Nat) (h : i < (numberedSessions tz records n ks).length),
      ((numberedSessions tz records n ks).get ⟨i, h⟩).1 = n + i + 1 := by
  intro ks
  induction ks with
  | nil => intro n i h; simp [numberedSessions] at h
  | cons k ks ih =>
      intro n i h
      cases i with
      | zero => rfl
      | succ i =>
          have h2 : i < (numberedSessions tz records (n + 1) ks).length := by
            have := h
            simp only [numberedSessions, List.length_cons] at this
            omega
          have h3 := ih (n + 1) i h2
          simp only [numberedSessions, List.get_cons_succ]
          rw [h3]
          omega

lemma numberedSessions_map_key (tz : Int) (records : List ObservationRecord) :
    ∀ (ks : List Int) (n : Nat),
      (numberedSessions tz records n ks).map (fun s => s.2.1) = ks := by
  intro ks
  induction ks with
  | nil => intro n; rfl
  | cons k ks ih => intro n; simp [numberedSessions, ih]

lemma mem_numberedSessions (tz : Int) (records : List ObservationRecord) :
    ∀ (ks : List Int) (n : Nat) (s : Nat × Int × List ObservationRecord),
      s ∈ numberedSessions tz records n ks →
      s.2.1 ∈ ks ∧ s.2.2 = sessionRecords tz records s.2.1 := by
  intro ks
  induction ks with
  | nil => intro n s h; simp [numberedSessions] at h
  | cons k ks ih =>
      intro n s h
      simp only [numberedSessions, List.mem_cons] at h
      rcases h with h1 | h1
      · subst h1; exact ⟨List.mem_cons_self _ _, rfl⟩
      · rcases ih (n + 1) s h1 with ⟨ha, hb⟩
        exact ⟨List.mem_cons_of_mem _ ha, hb⟩

lemma mem_sessionRecords (tz : Int) (records : List ObservationRecord)
    (k : Int) (r : ObservationRecord) (h : r ∈ sessionRecords tz records k) :
    r ∈ records ∧ dateKey tz r = k := by
  have h2 := List.mem_filter.1 h
  exact ⟨h2.1, by simpa using h2.2⟩

/-! ## C1 -/

/-- Claim C1: the number of emitted session groups is
min(number of distinct date keys, 8); the retained keys are the
chronologically earliest distinct dates, sorted ascending; session numbers
are 1-based in that sorted order; and records whose date key is dropped by
the cap appear in no emitted group.  (The model is a total function, so no
error is raised on truncation.) -/
theorem c1_session_cap_and_order (tz : Int) (records : List ObservationRecord) :
    (sessions tz records).length = min ((records.map (dateKey tz)).toFinset.card) 8
    ∧ (sessions tz records).map (fun s => s.2.1) = sessionKeys tz records
    ∧ List.Sorted (· < ·) (sessionKeys tz records)
    ∧ (∀ k ∈ sessionKeys tz records, ∃ r ∈ records, dateKey tz r = k)
    ∧ (∀ k, (∃ r ∈ records, dateKey tz r = k) → k ∉ sessionKeys tz records →
        ∀ k2 ∈ sessionKeys tz records, k2 < k)
    ∧ (∀ (i : Nat) (h : i < (sessions tz records).length),
        ((sessions tz records).get ⟨i, h⟩).1 = i + 1)
    ∧ (∀ r ∈ records, dateKey tz r ∉ sessionKeys tz records →
        ∀ s ∈ sessions tz records, r ∉ s.2.2) := by
  refine ⟨?_, ?_, sessionKeys_sorted_lt tz records, ?_, ?_, ?_, ?_⟩
  · have h1 : (sessions tz records).length = (sessionKeys tz records).length :=
      numberedSessions_length tz records _ 0
    have h2 : (sessionKeys tz records).length = min 8 (sortedKeys tz records).length := by
      rw [sessionKeys, List.length_take]
    have h3 : (sortedKeys tz records).length = (dateKeys tz records).length :=
      (sortedKeys_perm tz records).length_eq
    rw [h1, h2, h3, length_dateKeys, Nat.min_comm]
  · exact numberedSessions_map_key tz records _ 0
  · intro k hk
    exact (mem_dateKeys tz records k).1 (sessionKeys_subset_dateKeys tz records k hk)
  · intro k hk hnot
    exact sessionKeys_dropped_gt tz records k ((mem_dateKeys tz records k).2 hk) hnot
  · intro i h
    have h3 := numberedSessions_get_fst tz records (sessionKeys tz records) 0 i h
    exact h3.trans (by omega)
  · intro r _ hnot s hs hmem
    rcases mem_numberedSessions tz records _ 0 s hs with ⟨hkey, hrec⟩
    rw [hrec] at hmem
    exact hnot ((mem_sessionRecords tz records s.2.1 r hmem).2 ▸ hkey)

/-! ## C2 -/

/-- Claim C2 counterexample: for the single-record input
`[{timestamp: 0, timing: 1}]` (tz = 0), the session-1 / timing-2 bucket has
no record carrying a matching action, yet the rendered glyph sequence in
column 3 has only 2 unchecked glyphs — the `[:2]` display cap also
truncates the 3-element unchecked fallback — not 3 as claimed. -/
theorem c2_counterexample :
    (sessions 0 [⟨some 0, some 1, none⟩]).map (fun s => displayGlyphs s.2.2 2)
      = [["☐手指消毒", "☐手洗い"]]
    ∧ (sessions 0 [⟨some 0, some 1, none⟩]).map
        (fun s => (displayGlyphs s.2.2 2).length) = [2]
    ∧ (2 : Nat) ≠ 3 := by
  refine ⟨rfl, rfl, by decide⟩

/-- Claim C2 (amended): for every (session group, timing) bucket with zero
records carrying a matching known action, the rendered glyph sequence is
exactly the FIRST TWO unchecked glyphs (hand-sanitizer, hand-wash): the
fallback list holds all three unchecked glyphs, but the 2-entry display cap
truncates it, so the no-action glyph is never rendered in this case. -/
theorem c2_amended_empty_bucket_two_unchecked (group : List ObservationRecord)
    (t : Int) (h : ∀ r ∈ timingRecords group t, actionGlyph r = none) :
    displayGlyphs group t = ["☐手指消毒", "☐手洗い"] := by
  have h2 : checkedGlyphs group t = [] := List.filterMap_eq_nil_iff.2 h
  rw [displayGlyphs, if_pos h2]
  rfl

/-- Witness for C2 (amended) at the concrete input of the counterexample. -/
theorem c2_amended_witness :
    displayGlyphs [⟨some 0, some 1, none⟩] 2 = ["☐手指消毒", "☐手洗い"] :=
  c2_amended_empty_bucket_two_unchecked [⟨some 0, some 1, none⟩] 2 (by decide)

/-! ## C3 -/

/-- Claim C3 counterexample: two same-day records both carrying
`hand_sanitizer` in the timing-1 bucket render TWO identical checked
glyphs; the deduplicated first-seen rule of the claim would render one. -/
theorem c3_counterexample :
    (sessions 0 [⟨some 0, some 1, some "hand_sanitizer"⟩,
                 ⟨some 1000, some 1, some "hand_sanitizer"⟩]).map
        (fun s => displayGlyphs s.2.2 1) = [["☑手指消毒", "☑手指消毒"]]
    ∧ (sessions 0 [⟨some 0, some 1, some "hand_sanitizer"⟩,
                   ⟨some 1000, some 1, some "hand_sanitizer"⟩]).map
        (fun s => specDedupDisplay s.2.2 1) = [["☑手指消毒"]]
    ∧ (["☑手指消毒", "☑手指消毒"] : List String) ≠ ["☑手指消毒"] := by
  refine ⟨rfl, rfl, by decide⟩

/-- Each record of the bucket that carries a known action contributes one
glyph: the `actions` list length is the count of such records. -/
lemma checkedGlyphs_length (group : List ObservationRecord) (t : Int) :
    (checkedGlyphs group t).length =
      (timingRecords group t).countP (fun r => (actionGlyph r).isSome) := by
  rw [checkedGlyphs]
  induction timingRecords group t with
  | nil => rfl
  | cons r rs ih =>
      cases hc : actionGlyph r <;>
        simp [List.filterMap_cons, List.countP_cons, hc, ih]

/-- Claim C3 (amended): for every (session group, timing) bucket with at
least one record carrying a matching known action, the rendered sequence is
the first 2 entries of the PER-RECORD checked-glyph list, in record order
and WITHOUT deduplication: every record with a known action contributes its
own glyph, so a kind carried by several records appears several times. -/
theorem c3_amended_no_dedup (group : List ObservationRecord) (t : Int)
    (h : ∃ r ∈ timingRecords group t, actionGlyph r ≠ none) :
    displayGlyphs group t = (checkedGlyphs group t).take 2
    ∧ (checkedGlyphs group t).length =
        (timingRecords group t).countP (fun r => (actionGlyph r).isSome) := by
  have hne : checkedGlyphs group t ≠ [] := by
    intro he
    rcases h with ⟨r, hr, hg⟩
    exact hg (List.filterMap_eq_nil_iff.1 he r hr)
  exact ⟨by rw [displayGlyphs, if_neg hne], checkedGlyphs_length group t⟩

/-- Witness for C3 (amended) at the concrete input of the counterexample. -/
theorem c3_amended_witness :
    displayGlyphs [⟨some 0, some 1, some "hand_sanitizer"⟩,
                   ⟨some 1000, some 1, some "hand_sanitizer"⟩] 1
      = ["☑手指消毒", "☑手指消毒"] := by
  have h := c3_amended_no_dedup
    [⟨some 0, some 1, some "hand_sanitizer"⟩,
     ⟨some 1000, some 1, some "hand_sanitizer"⟩] 1
    ⟨⟨some 0, some 1, some "hand_sanitizer"⟩, by decide, by decide⟩
  rw [h.1]
  rfl

/-! ## C4 -/

/-- Claim C4: for every session group and timing, the column-2 glyph is the
checked box iff at least one record of the group has exactly that timing
value, and the unchecked box otherwise; and that glyph is what the data row
renders in column 2. -/
theorem c4_applicable_iff (group : List ObservationRecord) (t : Int) :
    (applicableGlyph group t = "☑" ↔ ∃ r ∈ group, r.timing = some t)
    ∧ (applicableGlyph group t = "☐" ↔ ¬∃ r ∈ group, r.timing = some t)
    ∧ (∀ (n : Nat) (y : ℚ),
        DrawOp.text (margin + colWidth + 2 * mmUnit) (y - rowHeight + 2 * mmUnit)
          (applicableGlyph group t) ∈ rowOps n group t y) := by
  have hiff : timingRecords group t = [] ↔ ¬∃ r ∈ group, r.timing = some t := by
    rw [timingRecords, List.filter_eq_nil_iff]
    push_neg
    simp
  refine ⟨⟨?_, ?_⟩, ⟨?_, ?_⟩, ?_⟩
  · intro h
    by_contra hno
    rw [applicableGlyph, if_pos (hiff.2 hno)] at h
    exact absurd h (by decide)
  · intro h
    rw [applicableGlyph, if_neg (fun he => (hiff.1 he) h)]
  · intro h hex
    by_cases he : timingRecords group t = []
    · exact (hiff.1 he) hex
    · rw [applicableGlyph, if_neg he] at h
      exact absurd h (by decide)
  · intro h
    rw [applicableGlyph, if_pos (hiff.2 h)]
  · intro n y
    simp [rowOps]

/-! ## C5 -/

/-- Claim C5 counterexample: with no records and start cursor 0 the table
layout returns `0 - 10mm - rowHeight` (= -18 mm), not `0 - rowHeight`
(= -8 mm) as the zero-group case of the claim requires: the code moves the
cursor down a fixed 10 mm before drawing the header row. -/
theorem c5_counterexample :
    (tableOps 0 [] 0).2 = 0 - 10 * mmUnit - rowHeight
    ∧ (tableOps 0 [] 0).2 ≠ 0 - rowHeight := by
  have h : (tableOps 0 [] 0).2 = 0 - 10 * mmUnit - rowHeight := rfl
  refine ⟨h, ?_⟩
  rw [h]
  norm_num [mmUnit, rowHeight]

/-- The five-row inner loop moves the cursor down `5 * rowHeight`. -/
lemma sessionOps_snd (n : Nat) (group : List ObservationRecord) (y : ℚ) :
    (sessionOps n group y).2 = y - 5 * rowHeight := by
  simp only [sessionOps, timingsList, List.foldl_cons, List.foldl_nil]
  ring

/-- Cursor value of the session fold of `_draw_observation_table`. -/
lemma tableFold_snd :
    ∀ (l : List (Nat × Int × List ObservationRecord)) (ops : List DrawOp) (y : ℚ),
      (l.foldl (fun acc s =>
          let r := sessionOps s.1 s.2.2 acc.2
          (acc.1 ++ r.1, r.2)) (ops, y)).2
        = y - 5 * (l.length : ℚ) * rowHeight := by
  intro l
  induction l with
  | nil => intro ops y; simp
  | cons s l ih =>
      intro ops y
      simp only [List.foldl_cons, List.length_cons]
      rw [ih, sessionOps_snd]
      push_cast
      ring

/-- Claim C5 (amended): the table layout returns
`startY - 10 mm - rowHeight * (1 + 5 * #sessionGroups)`: one header row plus
five rows per session group, all below a fixed initial 10 mm offset.  With
zero session groups this is `startY - 10 mm - rowHeight`. -/
theorem c5_amended_cursor (tz : Int) (records : List ObservationRecord)
    (yStart : ℚ) :
    (tableOps tz records yStart).2
      = yStart - 10 * mmUnit
          - rowHeight * (1 + 5 * ((sessions tz records).length : ℚ)) := by
  simp only [tableOps]
  rw [tableFold_snd]
  ring

/-! ## C6 -/

lemma mem_if_singleton {α : Type} (a b : α) (c : Prop) [Decidable c] :
    (a ∈ if c then [b] else []) ↔ c ∧ a = b := by
  by_cases h : c <;> simp [h]

lemma self_eq_sub_iff (a b : ℚ) : a = a - b ↔ b = 0 := by
  constructor
  · intro h; linarith
  · intro h; rw [h, sub_zero]

/-- The cell ops written via `headerX` / `headerY` (for odd `i` the code
computes the row as `(i - 1) / 2`, which equals `i / 2`). -/
lemma headerCellOps_eq (yStart : ℚ) (i : Nat) (label value : String) :
    headerCellOps yStart i label value =
      [DrawOp.text (headerX i) (headerY yStart i) label,
       DrawOp.line (headerX i + 25 * mmUnit) (headerY yStart i - 1 * mmUnit)
         (headerX i + 60 * mmUnit) (headerY yStart i - 1 * mmUnit)]
      ++ (if value ≠ "" then
            [DrawOp.text (headerX i + 26 * mmUnit) (headerY yStart i - 2 * mmUnit)
              value]
          else []) := by
  rw [headerCellOps, headerX, headerY]
  by_cases h : i % 2 = 0
  · simp [h]
  · have h2 : (i - 1) / 2 = i / 2 := by omega
    simp [h, h2]

lemma headerOps_fst_eq (info : FacilityInfo) (yStart : ℚ) :
    (headerOps info yStart).1 =
      DrawOp.setFont "HeiseiKakuGo-W5" 9 ::
        (headerCellOps yStart 0 "施設名:" (info.facilityName.getD "")
         ++ (headerCellOps yStart 1 "部局:" (info.department.getD "")
         ++ (headerCellOps yStart 2 "病棟:" (info.ward.getD "")
         ++ (headerCellOps yStart 3 "科:" (info.sectionName.getD "")
         ++ (headerCellOps yStart 4 "期間番号:" (info.periodNumber.getD "")
         ++ (headerCellOps yStart 5 "日付 (dd/mm/yy):" (info.date.getD "")
         ++ (headerCellOps yStart 6 "セッション番号:" (info.sessionNumber.getD "")
         ++ (headerCellOps yStart 7 "観察者 (initials):" (info.observer.getD "")
         ++ (headerCellOps yStart 8 "ページ№:" (info.pageNumber.getD "")
         ++ (headerCellOps yStart 9 "住所:" (info.address.getD "")
         ++ [])))))))))) := rfl

/-- Claim C6: the header grid has exactly 10 fields; every label and its
answer line are drawn, in the fixed 2-column 5-row order (even index left
column, odd index right column, row `i / 2`); the value text of field `i`
is drawn (just above its rule) iff that field is present and non-empty; and
the returned cursor is `yStart - 6 * lineHeight`. -/
theorem c6_header_layout (info : FacilityInfo) (yStart : ℚ) :
    (headerFields info).length = 10
    ∧ (headerOps info yStart).2 = yStart - 6 * lineHeight
    ∧ (∀ i : Nat, i < 10 →
        DrawOp.text (headerX i) (headerY yStart i)
            ((headerFields info).getD i ("", "")).1 ∈ (headerOps info yStart).1
        ∧ DrawOp.line (headerX i + 25 * mmUnit) (headerY yStart i - 1 * mmUnit)
            (headerX i + 60 * mmUnit) (headerY yStart i - 1 * mmUnit)
            ∈ (headerOps info yStart).1)
    ∧ (∀ i : Nat, i < 10 →
        (DrawOp.text (headerX i + 26 * mmUnit) (headerY yStart i - 2 * mmUnit)
            ((headerFields info).getD i ("", "")).2 ∈ (headerOps info yStart).1
          ↔ ((headerFields info).getD i ("", "")).2 ≠ "")) := by
  refine ⟨rfl, rfl, ?_, ?_⟩
  · intro i h10
    interval_cases i <;>
      exact ⟨by
        simp [headerOps_fst_eq, headerCellOps_eq, headerFields, mem_if_singleton,
          List.getD_cons_zero, List.getD_cons_succ], by
        simp [headerOps_fst_eq, headerCellOps_eq, headerFields, mem_if_singleton,
          List.getD_cons_zero, List.getD_cons_succ]⟩
  · intro i h10
    interval_cases i <;>
      · simp [headerOps_fst_eq, headerCellOps_eq, headerFields, mem_if_singleton,
          List.getD_cons_zero, List.getD_cons_succ]
        norm_num [headerX, headerY, xLeft, xRight, margin, pageWidth, lineHeight,
          mmUnit, sub_right_inj, self_eq_sub_iff]

/-! ## C9 -/

/-- Claim C9: a record with no `timestamp` key raises no error: it is treated
as timestamp 0, so its date key is the local calendar day of the epoch;
that key is ≤ the key of every record with a non-negative real timestamp
(so it sorts before any modern date, strictly when the dates differ);
and concretely, with nine distinct dates one of which comes from a
timestamp-less record, the epoch date occupies a retained session slot and
the latest real date (day 8) is displaced. -/
theorem c9_missing_timestamp_epoch (tz : Int) (r : ObservationRecord)
    (h : r.timestamp = none) :
    dateKey tz r = dateKey tz ⟨some 0, r.timing, r.action⟩
    ∧ dateKey tz r = Int.fdiv tz dayMs
    ∧ (0 ≤ tz → tz < dayMs → dateKey tz r = 0)
    ∧ (∀ (r2 : ObservationRecord) (ts : Int), r2.timestamp = some ts → 0 ≤ ts →
        dateKey tz r ≤ dateKey tz r2)
    ∧ sessionKeys 0 [⟨none, none, none⟩,
        ⟨some 86400000, some 1, none⟩, ⟨some 172800000, some 1, none⟩,
        ⟨some 259200000, some 1, none⟩, ⟨some 345600000, some 1, none⟩,
        ⟨some 432000000, some 1, none⟩, ⟨some 518400000, some 1, none⟩,
        ⟨some 604800000, some 1, none⟩, ⟨some 691200000, some 1, none⟩]
      = [0, 1, 2, 3, 4, 5, 6, 7]
    ∧ (8 : Int) ∉ sessionKeys 0 [⟨none, none, none⟩,
        ⟨some 86400000, some 1, none⟩, ⟨some 172800000, some 1, none⟩,
        ⟨some 259200000, some 1, none⟩, ⟨some 345600000, some 1, none⟩,
        ⟨some 432000000, some 1, none⟩, ⟨some 518400000, some 1, none⟩,
        ⟨some 604800000, some 1, none⟩, ⟨some 691200000, some 1, none⟩] := by
  refine ⟨by simp [dateKey, h], by simp [dateKey, h], ?_, ?_, by decide, by decide⟩
  · intro h1 h2
    rw [dateKey, h]
    simp only [Option.getD_none, zero_add]
    rw [Int.fdiv_eq_ediv _ (by rw [dayMs]; omega)]
    exact Int.ediv_eq_zero_of_lt h1 h2
  · intro r2 ts hts hpos
    rw [dateKey, dateKey, h, hts]
    simp only [Option.getD_none, Option.getD_some, zero_add]
    rw [Int.fdiv_eq_ediv _ (by rw [dayMs]; omega),
      Int.fdiv_eq_ediv _ (by rw [dayMs]; omega)]
    exact Int.ediv_le_ediv (by rw [dayMs]; omega) (by omega)

/-- Witness for C9 at a concrete timestamp-less record (tz = 0). -/
theorem c9_witness :
    dateKey 0 ⟨none, some 1, none⟩ = 0
    ∧ dateKey 0 ⟨none, some 1, none⟩ ≤ dateKey 0 ⟨some 1700000000000, some 1, none⟩ := by
  have h := c9_missing_timestamp_epoch 0 ⟨none, some 1, none⟩ rfl
  exact ⟨h.2.2.1 (by omega) (by rw [dayMs]; omega),
    h.2.2.2.1 ⟨some 1700000000000, some 1, none⟩ 1700000000000 rfl (by omega)⟩

/-! ## C10 -/

/-- Claim C10: a record whose `timing` is absent or outside 1..5 still
creates/joins its calendar-date session group (its key enters the distinct
key list that the 8-session cap is applied to, and the record is in the bucket of its
own date); it matches no timing bucket itself; every session group
draws a full block of five rows in fixed order 1..5; and if no record of
that date has a timing in 1..5, all five rows render the unchecked
applicable box and only unchecked action glyphs. -/
theorem c10_unmatched_timing_still_groups (tz : Int)
    (records : List ObservationRecord) (r : ObservationRecord)
    (hr : r ∈ records)
    (ht : ∀ t : Int, 1 ≤ t → t ≤ 5 → r.timing ≠ some t) :
    dateKey tz r ∈ dateKeys tz records
    ∧ r ∈ sessionRecords tz records (dateKey tz r)
    ∧ (∀ t : Int, 1 ≤ t → t ≤ 5 →
        r ∉ timingRecords (sessionRecords tz records (dateKey tz r)) t)
    ∧ (∀ (n : Nat) (group : List ObservationRecord) (y : ℚ),
        (sessionOps n group y).1
          = rowOps n group 1 y
            ++ rowOps n group 2 (y - rowHeight)
            ++ rowOps n group 3 (y - rowHeight - rowHeight)
            ++ rowOps n group 4 (y - rowHeight - rowHeight - rowHeight)
            ++ rowOps n group 5 (y - rowHeight - rowHeight - rowHeight - rowHeight))
    ∧ ((∀ r2 ∈ sessionRecords tz records (dateKey tz r),
          ∀ t : Int, 1 ≤ t → t ≤ 5 → r2.timing ≠ some t) →
        ∀ t : Int, 1 ≤ t → t ≤ 5 →
          applicableGlyph (sessionRecords tz records (dateKey tz r)) t = "☐"
          ∧ displayGlyphs (sessionRecords tz records (dateKey tz r)) t
              = ["☐手指消毒", "☐手洗い"]) := by
  refine ⟨?_, ?_, ?_, ?_, ?_⟩
  · exact (mem_dateKeys tz records _).2 ⟨r, hr, rfl⟩
  · exact List.mem_filter.2 ⟨hr, by simp⟩
  · intro t h1 h2 hmem
    exact ht t h1 h2 (by simpa using (List.mem_filter.1 hmem).2)
  · intro n group y
    simp only [sessionOps, timingsList, List.foldl_cons, List.foldl_nil,
      List.nil_append, List.append_assoc]
  · intro hall t h1 h2
    have hempty : timingRecords (sessionRecords tz records (dateKey tz r)) t = [] := by
      rw [timingRecords, List.filter_eq_nil_iff]
      intro r2 hr2
      simpa using hall r2 hr2 t h1 h2
    constructor
    · rw [applicableGlyph, if_pos hempty]
    · rw [displayGlyphs, if_pos (by rw [checkedGlyphs, hempty]; rfl)]
      rfl

/-- Witness for C10: a single record with timing 7 still produces one full
session group. -/
theorem c10_witness :
    dateKey 0 ⟨some 0, some 7, none⟩ ∈ dateKeys 0 [⟨some 0, some 7, none⟩]
    ∧ applicableGlyph (sessionRecords 0 [⟨some 0, some 7, none⟩] 0) 1 = "☐" := by
  have h := c10_unmatched_timing_still_groups 0 [⟨some 0, some 7, none⟩]
    ⟨some 0, some 7, none⟩ (by decide) (by intro t h1 h2; simp; omega)
  refine ⟨h.1, ?_⟩
  have h5 := (h.2.2.2.2 (by
    intro r2 hr2 t h1 h2
    have : r2 = ⟨some 0, some 7, none⟩ := by
      have := (List.mem_filter.1 hr2).1
      simpa using this
    subst this
    simp
    omega) 1 (by omega) (by omega)).1
  have hk : dateKey 0 (⟨some 0, some 7, none⟩ : ObservationRecord) = 0 := by decide
  rw [hk] at h5
  exact h5

/-! ## C8 -/

/-- Claim C8: the drawn structural content is a pure function of the inputs:
two runs of `generate` with equal facility info and equal records produce
identical drawing-operation traces (the output path contributes no drawn
content, so it does not appear as an argument of the trace). -/
theorem c8_generate_deterministic (tz : Int) (info info2 : FacilityInfo)
    (records records2 : List ObservationRecord)
    (hinfo : info = info2) (hrec : records = records2) :
    generateOps tz info records = generateOps tz info2 records2 := by
  rw [hinfo, hrec]

/-- Witness for C8 at concrete equal inputs. -/
theorem c8_witness :
    generateOps 0 ⟨none, none, none, none, none, none, none, none, none, none⟩ []
      = generateOps 0 ⟨none, none, none, none, none, none, none, none, none, none⟩ [] :=
  c8_generate_deterministic 0 _ _ _ _ rfl rfl

/-! ## C7 -/

/-- Claim C7 counterexample: the missing-argument invocation
(`sys.argv = ["pdf_generator.py"]`) prints the plain usage line — not a
JSON envelope — and exits 1, so not every failure path emits the
`{success:false, error}` JSON object. -/
theorem c7_counterexample :
    mainRun ["pdf_generator.py"] (fun _ _ => Except.ok "out.pdf")
      = ⟨StdoutMsg.usageText, 1⟩
    ∧ isJsonObjectOutput
        (mainRun ["pdf_generator.py"] (fun _ _ => Except.ok "out.pdf")).stdout
      = false := by
  exact ⟨rfl, rfl⟩

/-- Claim C7 (amended): with at least the two positional arguments present,
the CLI emits exactly one JSON envelope — the success object with exit code
0 when generation succeeds, the error object with exit code 1 when any
exception is caught; but a missing-argument invocation prints a plain usage
line (not JSON) and exits 1.  Stdout is a JSON object iff the argument
count check passes. -/
theorem c7_amended_cli_contract (argv : List String)
    (gen : String → String → Except String String) :
    (argv.length < 3 → mainRun argv gen = ⟨StdoutMsg.usageText, 1⟩)
    ∧ (3 ≤ argv.length → ∀ p, gen (argv.getD 1 "") (argv.getD 2 "") = Except.ok p →
        mainRun argv gen = ⟨StdoutMsg.jsonSuccess p, 0⟩)
    ∧ (3 ≤ argv.length → ∀ e, gen (argv.getD 1 "") (argv.getD 2 "") = Except.error e →
        mainRun argv gen = ⟨StdoutMsg.jsonError e, 1⟩)
    ∧ (isJsonObjectOutput (mainRun argv gen).stdout = true ↔ 3 ≤ argv.length)
    ∧ ((mainRun argv gen).exitCode = 0 ∨ (mainRun argv gen).exitCode = 1) := by
  refine ⟨?_, ?_, ?_, ?_, ?_⟩
  · intro h
    rw [mainRun, if_pos h]
  · intro h p hp
    rw [mainRun, if_neg (by omega), hp]
  · intro h e he
    rw [mainRun, if_neg (by omega), he]
  · constructor
    · intro h
      by_contra hlt
      rw [mainRun, if_pos (by omega)] at h
      exact absurd h (by decide)
    · intro h
      rw [mainRun, if_neg (by omega)]
      cases gen (argv.getD 1 "") (argv.getD 2 "") <;> rfl
  · rw [mainRun]
    by_cases h : argv.length < 3
    · rw [if_pos h]; right; rfl
    · rw [if_neg h]
      cases gen (argv.getD 1 "") (argv.getD 2 "")
      · right; rfl
      · left; rfl

/-- Witness for C7 (amended): both a success run and an error run at
concrete arguments. -/
theorem c7_amended_witness :
    mainRun ["pdf_generator.py", "out.pdf", "\x7b\x7d"]
        (fun _ _ => Except.ok "out.pdf")
      = ⟨StdoutMsg.jsonSuccess "out.pdf", 0⟩
    ∧ mainRun ["pdf_generator.py", "out.pdf", "bad"]
        (fun _ _ => Except.error "Expecting value")
      = ⟨StdoutMsg.jsonError "Expecting value", 1⟩ := by
  constructor
  · exact (c7_amended_cli_contract ["pdf_generator.py", "out.pdf", "\x7b\x7d"]
      (fun _ _ => Except.ok "out.pdf")).2.1 (by decide) "out.pdf" rfl
  · exact (c7_amended_cli_contract ["pdf_generator.py", "out.pdf", "bad"]
      (fun _ _ => Except.error "Expecting value")).2.2.1 (by decide)
      "Expecting value" rfl

end PdfGen
